import Mathlib

/-!
Shallow embedding of the memory-enhancement service
(`backend/services/memory-enhancement/main.py` together with the tier models in
`backend/shared/models/memory.py`), and proofs about its consolidation,
retrieval and coherence logic.

Modelling conventions:
* The relational store is a `Store` of per-tier lists of rows; SQLAlchemy
  session staging (`db.add` / `db.delete` followed by a single `db.commit`)
  is modelled by a `DbSession` of pending writes applied by `commitSession`.
* Timestamps are integers (seconds); `datetime.utcnow() - timedelta(days=d)`
  becomes `now - 86400 * d`.
* Interaction payloads are kept in serialized form: the `interaction_data`
  field of a row stands for `json.dumps(row.interaction_data)`.
* `MemoryConsolidator._evaluate_importance` works with the Python floats
  0.4, 0.5, 0.6, 0.8, an optional `+ 0.2` bump, `min(1.0, _)`, and the two
  comparisons `> 0.7` and `> 0.4`.  Every value reachable in that arithmetic
  is an exact IEEE-754 neighbour of a multiple of 0.1, and each comparison
  with 0.7 / 0.4 gives the same answer as the comparison of the intended
  decimal values (in particular the Python double `0.5 + 0.2` is exactly the
  double of the literal `0.7`, so `0.5 + 0.2 > 0.7` is `False`).  Scores are
  therefore embedded as natural numbers in tenths: 4,5,6,8, bump `+2`,
  `min 10`, comparisons `> 7` and `> 4`.
* The external judgment (LLM) capability and the pub/sub publisher are the
  spec's external collaborators; a judgment call's parsed outcome enters the
  embedding as an explicit argument (`Option` = success / any failure).
-/

namespace MemoryEnhancement

/-- A `memory_tier1` row as the service reads it: primary key, owning entity,
`interaction_type`, serialized `interaction_data`, and creation time. -/
structure Tier1Rec where
  rid : Nat
  entity_id : Nat
  interaction_type : String
  interaction_data : String
  created_at : Int
  deriving DecidableEq, Repr

/-- A `memory_tier2` row as constructed by `MemoryConsolidator.consolidate`
(`MemoryTier2(entity_id=…, interaction_type=…, interaction_data=…,
created_at=…)`); the primary key is assigned by the store and modelled as 0. -/
structure Tier2Rec where
  rid : Nat
  entity_id : Nat
  interaction_type : String
  interaction_data : String
  created_at : Int
  deriving DecidableEq, Repr

/-- A `memory_tier3` row.  The schema (`models/memory.py`, `MemoryTier3`)
declares `summary` (NOT NULL) and `embedding` columns, so they appear here as
`Option` fields; `consolidate` constructs the row without either. -/
structure Tier3Rec where
  rid : Nat
  entity_id : Nat
  interaction_type : String
  interaction_data : String
  created_at : Int
  summary : Option String
  embedding : Option (List Int)
  deriving DecidableEq, Repr

/-- A `memory_tier4` row (archive metadata); only its owning entity matters
for the operations verified here. -/
structure Tier4Rec where
  rid : Nat
  entity_id : Nat
  deriving DecidableEq, Repr

/-- The tiered record store. -/
structure Store where
  tier1 : List Tier1Rec
  tier2 : List Tier2Rec
  tier3 : List Tier3Rec
  tier4 : List Tier4Rec
  deriving DecidableEq, Repr

/-! ### Importance evaluation (`MemoryConsolidator._evaluate_importance`) -/

/-- Does `needle` start `hay`? (helper for substring search). -/
def charsStartWith : List Char → List Char → Bool
  | [], _ => true
  | _ :: _, [] => false
  | a :: as, b :: bs => a == b && charsStartWith as bs

/-- Does `needle` occur contiguously in the character list? -/
def charsContain (needle : List Char) : List Char → Bool
  | [] => needle.isEmpty
  | b :: bs => charsStartWith needle (b :: bs) || charsContain needle bs

/-- Python's `needle in hay` on strings. -/
def strContains (hay needle : String) : Bool :=
  charsContain needle.toList hay.toList

/-- Python's `str.lower()` (ASCII is all the keywords need). -/
def lowerStr (s : String) : String :=
  String.mk (s.toList.map Char.toLower)

/-- The salience check of `_evaluate_importance`:
`"important" in content.lower() or "critical" in content.lower()`. -/
def hasSalienceKeyword (content : String) : Bool :=
  strContains (lowerStr content) "important" || strContains (lowerStr content) "critical"

/-- The `importance_weights` table, in tenths:
decision 0.8, task_execution 0.6, conversation 0.5, event 0.4, action 0.5,
default 0.5. -/
def importanceWeight (t : String) : Nat :=
  if t == "decision" then 8
  else if t == "task_execution" then 6
  else if t == "conversation" then 5
  else if t == "event" then 4
  else if t == "action" then 5
  else 5

/-- `_evaluate_importance(memory)`, in tenths of the Python score: start from
the type weight, add 0.2 when the serialized content mentions a salience
keyword, clamp with `min(1.0, _)`. -/
def evaluateImportance (m : Tier1Rec) : Nat :=
  let base := importanceWeight m.interaction_type
  let adjusted := if hasSalienceKeyword m.interaction_data then base + 2 else base
  min 10 adjusted

/-- The consolidation branch `if importance > 0.7` (tier-2 promotion). -/
def routesToTier2 (m : Tier1Rec) : Bool :=
  decide (7 < evaluateImportance m)

/-- The consolidation branch `elif importance > 0.4` (tier-3 promotion). -/
def routesToTier3 (m : Tier1Rec) : Bool :=
  !decide (7 < evaluateImportance m) && decide (4 < evaluateImportance m)

/-- The consolidation `else` branch (counted as `archived`, no successor). -/
def isDiscarded (m : Tier1Rec) : Bool :=
  !decide (7 < evaluateImportance m) && !decide (4 < evaluateImportance m)

/-! ### Consolidation (`MemoryConsolidator.consolidate`) -/

/-- `cutoff = datetime.utcnow() - timedelta(days=days_threshold)`. -/
def cutoffFor (now : Int) (daysThreshold : Nat) : Int :=
  now - 86400 * daysThreshold

/-- The selection filter of `consolidate`:
`entity_id == self.entity_id and created_at < cutoff`. -/
def selPred (eid : Nat) (cutoff : Int) (r : Tier1Rec) : Bool :=
  r.entity_id == eid && decide (r.created_at < cutoff)

/-- The `old_memories` query of `consolidate` (no limit clause: the query
calls `.all()` on the bare filter). -/
def selectOldMemories (eid : Nat) (cutoff : Int) (st : Store) : List Tier1Rec :=
  st.tier1.filter (selPred eid cutoff)

/-- Pending writes staged in the SQLAlchemy session before `db.commit()`. -/
structure DbSession where
  newT2 : List Tier2Rec
  newT3 : List Tier3Rec
  deletedT1 : List Nat
  deriving DecidableEq, Repr

/-- The session at the start of `consolidate`. -/
def emptySession : DbSession :=
  { newT2 := [], newT3 := [], deletedT1 := [] }

/-- The successor row built by the tier-2 branch of the loop. -/
def toTier2 (eid : Nat) (m : Tier1Rec) : Tier2Rec :=
  { rid := 0, entity_id := eid, interaction_type := m.interaction_type,
    interaction_data := m.interaction_data, created_at := m.created_at }

/-- The successor row built by the tier-3 branch of the loop: the constructor
call passes entity, type, data and creation time and supplies neither
`summary` nor `embedding`. -/
def toTier3 (eid : Nat) (m : Tier1Rec) : Tier3Rec :=
  { rid := 0, entity_id := eid, interaction_type := m.interaction_type,
    interaction_data := m.interaction_data, created_at := m.created_at,
    summary := none, embedding := none }

/-- State of the consolidation loop: the staged session plus the three
counters `moved_to_tier2`, `moved_to_tier3`, `archived`. -/
structure LoopState where
  sess : DbSession
  t2 : Nat
  t3 : Nat
  arch : Nat
  deriving DecidableEq, Repr

/-- Loop state before the first iteration. -/
def initLoopState : LoopState :=
  { sess := emptySession, t2 := 0, t3 := 0, arch := 0 }

/-- One iteration of the `for memory in old_memories` loop: route by the
importance score (strict `> 0.7`, then strict `> 0.4`, else archive), then
stage `db.delete(memory)`. -/
def consolidateStep (eid : Nat) (st : LoopState) (m : Tier1Rec) : LoopState :=
  let imp := evaluateImportance m
  let routed :=
    if 7 < imp then
      { st with sess := { st.sess with newT2 := st.sess.newT2 ++ [toTier2 eid m] },
                t2 := st.t2 + 1 }
    else if 4 < imp then
      { st with sess := { st.sess with newT3 := st.sess.newT3 ++ [toTier3 eid m] },
                t3 := st.t3 + 1 }
    else
      { st with arch := st.arch + 1 }
  { routed with sess := { routed.sess with deletedT1 := routed.sess.deletedT1 ++ [m.rid] } }

/-- `db.commit()`: apply every staged write to the store at once. -/
def commitSession (s : DbSession) (st : Store) : Store :=
  { st with
    tier1 := st.tier1.filter (fun r => !(decide (r.rid ∈ s.deletedT1))),
    tier2 := st.tier2 ++ s.newT2,
    tier3 := st.tier3 ++ s.newT3 }

/-- The dictionary returned by `consolidate` (the empty-selection early return
carries only `status` and `memories_processed`; the counters are read as 0). -/
structure ConsolidateResult where
  status : String
  memories_processed : Nat
  moved_to_tier2 : Nat
  moved_to_tier3 : Nat
  archived : Nat
  deriving DecidableEq, Repr

/-- `MemoryConsolidator.consolidate(days_threshold)`: select the entity's
tier-1 rows older than the cutoff; if none, return without touching the
store; otherwise run the routing loop building the staged session, commit it,
and return the counts. -/
def consolidate (eid : Nat) (now : Int) (daysThreshold : Nat) (st : Store) :
    Store × ConsolidateResult :=
  let cutoff := cutoffFor now daysThreshold
  let oldMemories := selectOldMemories eid cutoff st
  if oldMemories.isEmpty then
    (st, { status := "no_consolidation_needed", memories_processed := 0,
           moved_to_tier2 := 0, moved_to_tier3 := 0, archived := 0 })
  else
    let fin := oldMemories.foldl (consolidateStep eid) initLoopState
    (commitSession fin.sess st,
     { status := "consolidation_complete", memories_processed := oldMemories.length,
       moved_to_tier2 := fin.t2, moved_to_tier3 := fin.t3, archived := fin.arch })

/-- The store observed when a run of `consolidate` fails after `k` loop
iterations, before reaching `db.commit()`: the loop has only staged session
writes, and the store component is carried through the fold unchanged. -/
def consolidateAborted (eid : Nat) (now : Int) (daysThreshold : Nat)
    (st : Store) (k : Nat) : Store :=
  let cutoff := cutoffFor now daysThreshold
  let oldMemories := selectOldMemories eid cutoff st
  (((oldMemories.take k).foldl
      (fun (p : Store × LoopState) m => (p.1, consolidateStep eid p.2 m))
      (st, initLoopState))).1

/-! ### Stats (`get_memory_stats`) -/

/-- The `by_tier` counts plus `total_memories` returned by `/stats`. -/
structure MemoryStats where
  tier1_hot : Nat
  tier2_working : Nat
  tier3_reference : Nat
  tier4_archive : Nat
  total_memories : Nat
  deriving DecidableEq, Repr

/-- `get_memory_stats(entity_id)`: per-tier row counts for the entity. -/
def getMemoryStats (eid : Nat) (st : Store) : MemoryStats :=
  let t1 := (st.tier1.filter (fun r => r.entity_id == eid)).length
  let t2 := (st.tier2.filter (fun r => r.entity_id == eid)).length
  let t3 := (st.tier3.filter (fun r => r.entity_id == eid)).length
  let t4 := (st.tier4.filter (fun r => r.entity_id == eid)).length
  { tier1_hot := t1, tier2_working := t2, tier3_reference := t3,
    tier4_archive := t4, total_memories := t1 + t2 + t3 + t4 }

/-! ### Contextual retrieval (`ContextualRetriever`) -/

/-- A candidate dictionary built by `ContextualRetriever.retrieve`: tier, id,
serialized content, interaction type, creation time, and the
`relevance_score` key added during ranking. -/
structure MemCandidate where
  tier : Nat
  mid : String
  content : String
  mtype : String
  created : Int
  relevance_score : Option ℚ
  deriving DecidableEq, Repr

/-- Insert into a list kept in descending key order (helper for the
`ORDER BY created_at DESC` of the gather queries). -/
def insertDescBy {α : Type} (key : α → Int) (x : α) : List α → List α
  | [] => [x]
  | y :: ys => if key y ≤ key x then x :: y :: ys else y :: insertDescBy key x ys

/-- Sort in descending key order (`ORDER BY created_at DESC`). -/
def sortDescBy {α : Type} (key : α → Int) : List α → List α
  | [] => []
  | x :: xs => insertDescBy key x (sortDescBy key xs)

/-- The candidate dictionary for a tier-1 row. -/
def tier1Candidate (r : Tier1Rec) : MemCandidate :=
  { tier := 1, mid := toString r.rid, content := r.interaction_data,
    mtype := r.interaction_type, created := r.created_at, relevance_score := none }

/-- The candidate dictionary for a tier-2 row. -/
def tier2Candidate (r : Tier2Rec) : MemCandidate :=
  { tier := 2, mid := toString r.rid, content := r.interaction_data,
    mtype := r.interaction_type, created := r.created_at, relevance_score := none }

/-- The candidate dictionary for a tier-3 row. -/
def tier3Candidate (r : Tier3Rec) : MemCandidate :=
  { tier := 3, mid := toString r.rid, content := r.interaction_data,
    mtype := r.interaction_type, created := r.created_at, relevance_score := none }

/-- The `all_memories` pool of `retrieve`: per requested tier, the entity's
rows ordered by recency, capped at 100 (tiers 1 and 2) or 50 (tier 3). -/
def gatherCandidates (eid : Nat) (includeTiers : List Nat) (st : Store) :
    List MemCandidate :=
  (if includeTiers.contains 1 then
      ((sortDescBy (fun r => r.created_at)
          (st.tier1.filter (fun r => r.entity_id == eid))).take 100).map tier1Candidate
    else []) ++
  (if includeTiers.contains 2 then
      ((sortDescBy (fun r => r.created_at)
          (st.tier2.filter (fun r => r.entity_id == eid))).take 100).map tier2Candidate
    else []) ++
  (if includeTiers.contains 3 then
      ((sortDescBy (fun r => r.created_at)
          (st.tier3.filter (fun r => r.entity_id == eid))).take 50).map tier3Candidate
    else [])

/-- The parsed judgment (LLM) ranking payload:
`ranked_indices` and `relevance_scores` as read with `.get(_, [])`. -/
structure RankOutput where
  ranked_indices : List Nat
  relevance_scores : List ℚ
  deriving DecidableEq, Repr

/-- The neutral default relevance score 0.5. -/
def defaultScore : ℚ := 1 / 2

/-- The `for i, idx in enumerate(ranked_indices)` loop of
`_rank_by_relevance`: keep indices inside the pool, attach
`scores[i] if i < len(scores) else 0.5`, skip out-of-range indices. -/
def rankLoop (memories : List MemCandidate) (scores : List ℚ) :
    Nat → List Nat → List MemCandidate
  | _, [] => []
  | i, idx :: rest =>
    match memories.get? idx with
    | some m =>
        { m with relevance_score := some (scores.getD i defaultScore) } ::
          rankLoop memories scores (i + 1) rest
    | none => rankLoop memories scores (i + 1) rest

/-- `_rank_by_relevance`: on a parsed judgment response, run the ranking
loop; on any failure (exception / unparseable output), return the whole pool
unranked with the neutral default score. -/
def rankByRelevance (judgment : Option RankOutput) (memories : List MemCandidate) :
    List MemCandidate :=
  match judgment with
  | some r => rankLoop memories r.relevance_scores 0 r.ranked_indices
  | none => memories.map (fun m => { m with relevance_score := some defaultScore })

/-- `ContextualRetriever.retrieve`: gather the pool; empty pool short-circuits
to `[]`; otherwise rank and truncate to `max_results`. -/
def retrieveMems (judgment : Option RankOutput) (eid : Nat) (maxResults : Nat)
    (includeTiers : List Nat) (st : Store) : List MemCandidate :=
  let pool := gatherCandidates eid includeTiers st
  if pool.isEmpty then []
  else (rankByRelevance judgment pool).take maxResults

/-! ### Coherence checking (`CoherenceChecker`) -/

/-- An entry of the `issues` list of a coherence report. -/
structure Issue where
  itype : String
  severity : String
  description : String
  deriving DecidableEq, Repr

/-- The medium-severity issue appended when tier 2 outweighs tier 1. -/
def imbalanceIssue : Issue :=
  { itype := "tier_imbalance", severity := "medium",
    description := "Tier 2 has too many memories relative to Tier 1" }

/-- The low-severity staleness issue. -/
def staleIssue (staleCount : Nat) : Issue :=
  { itype := "stale_memories", severity := "low",
    description := toString staleCount ++ " memories in Tier 1 older than 7 days" }

/-- The Python comparison `tier2_count > tier1_count * 0.8` on row counts.
For every realistic count (below 2^50) the IEEE-754 evaluation of
`tier1_count * 0.8` decides this strict comparison exactly as the rational
inequality `tier2 > (4/5) * tier1`, embedded integrally. -/
def imbalanceExceeded (t1 t2 : Nat) : Bool :=
  decide (4 * t1 < 5 * t2)

/-- `_generate_recommendations`: one fixed string per issue type. -/
def recommendFor (i : Issue) : List String :=
  if i.itype == "tier_imbalance" then ["Run memory consolidation to balance tiers"]
  else if i.itype == "stale_memories" then ["Archive old Tier 1 memories to lower tiers"]
  else if i.itype == "contradiction" then ["Review and resolve contradictory memories"]
  else []

/-- The accumulation loop of `_generate_recommendations`. -/
def generateRecommendations (issues : List Issue) : List String :=
  issues.foldl (fun acc i => acc ++ recommendFor i) []

/-- The report returned by `CoherenceChecker.check_coherence`
(`issues_found` is `issues.length`). -/
structure CoherenceReport where
  coherence_score : ℚ
  tier1_count : Nat
  tier2_count : Nat
  tier3_count : Nat
  issues : List Issue
  recommendations : List String
  deriving DecidableEq, Repr

/-- `check_coherence(depth)`: count the entity's rows per tier, append the
imbalance issue when `tier2_count > tier1_count * 0.8`, append the staleness
issue when more than 100 tier-1 rows are older than a week, and at
`depth == "deep"` extend with the parsed judgment issues (`deepIssues` is the
parsed result of `_check_content_coherence`; every failure path of that
helper yields `[]`).  The score is `max(0, 1 - 0.1 * issue_count)`. -/
def checkCoherence (eid : Nat) (now : Int) (depth : String)
    (deepIssues : List Issue) (st : Store) : CoherenceReport :=
  let t1 := (st.tier1.filter (fun r => r.entity_id == eid)).length
  let t2 := (st.tier2.filter (fun r => r.entity_id == eid)).length
  let t3 := (st.tier3.filter (fun r => r.entity_id == eid)).length
  let issuesA := if imbalanceExceeded t1 t2 then [imbalanceIssue] else []
  let weekAgo := now - 86400 * 7
  let staleT1 := (st.tier1.filter
      (fun r => r.entity_id == eid && decide (r.created_at < weekAgo))).length
  let issuesB := if 100 < staleT1 then issuesA ++ [staleIssue staleT1] else issuesA
  let issues := if depth == "deep" then issuesB ++ deepIssues else issuesB
  { coherence_score := max 0 (1 - (issues.length : ℚ) / 10),
    tier1_count := t1, tier2_count := t2, tier3_count := t3,
    issues := issues, recommendations := generateRecommendations issues }

/-! ### Concrete stores used to instantiate the theorems -/

/-- A conversation record whose payload mentions a salience keyword: its
Python score is exactly 0.7 (embedded: 7 tenths). -/
def c1ConvRec : Tier1Rec :=
  { rid := 1, entity_id := 1, interaction_type := "conversation",
    interaction_data := "this is important", created_at := -1 }

/-- A plain event record: its Python score is exactly 0.4 (4 tenths). -/
def c1EventRec : Tier1Rec :=
  { rid := 2, entity_id := 1, interaction_type := "event",
    interaction_data := "routine", created_at := -1 }

/-- Store holding the two boundary-score records, both older than cutoff 0. -/
def c1Store : Store :=
  { tier1 := [c1ConvRec, c1EventRec], tier2 := [], tier3 := [], tier4 := [] }

/-- Store with one old decision record and one old event record. -/
def c2Store : Store :=
  { tier1 := [ { rid := 1, entity_id := 1, interaction_type := "decision",
                 interaction_data := "d", created_at := -1 },
               { rid := 2, entity_id := 1, interaction_type := "event",
                 interaction_data := "e", created_at := -1 } ],
    tier2 := [], tier3 := [], tier4 := [] }

/-- Store with one old conversation record. -/
def c3Store : Store :=
  { tier1 := [ { rid := 7, entity_id := 1, interaction_type := "conversation",
                 interaction_data := "c", created_at := -5 } ],
    tier2 := [], tier3 := [], tier4 := [] }

/-- Store with one tier-1 row for entity 1 (a non-empty candidate pool). -/
def c4Store : Store :=
  { tier1 := [ { rid := 4, entity_id := 1, interaction_type := "conversation",
                 interaction_data := "hello", created_at := 3 } ],
    tier2 := [], tier3 := [], tier4 := [] }

/-- Store with one tier-1 row, used to drive ranking end to end. -/
def c5Store : Store :=
  { tier1 := [ { rid := 5, entity_id := 1, interaction_type := "conversation",
                 interaction_data := "c", created_at := 0 } ],
    tier2 := [], tier3 := [], tier4 := [] }

/-- A conversation record with no salience keyword: score 0.5, routed to the
tier-3 branch. -/
def c6Store : Store :=
  { tier1 := [ { rid := 3, entity_id := 1, interaction_type := "conversation",
                 interaction_data := "chat", created_at := -1 } ],
    tier2 := [], tier3 := [], tier4 := [] }

/-- Store with three old records routed to tier 2, tier 3 and discard, plus
one pre-existing row in each destination tier. -/
def c7Store : Store :=
  { tier1 := [ { rid := 1, entity_id := 1, interaction_type := "decision",
                 interaction_data := "d", created_at := -1 },
               { rid := 2, entity_id := 1, interaction_type := "conversation",
                 interaction_data := "c", created_at := -1 },
               { rid := 3, entity_id := 1, interaction_type := "event",
                 interaction_data := "e", created_at := -1 },
               { rid := 4, entity_id := 1, interaction_type := "event",
                 interaction_data := "new", created_at := 5 } ],
    tier2 := [ { rid := 9, entity_id := 1, interaction_type := "conversation",
                 interaction_data := "old2", created_at := -9 } ],
    tier3 := [ { rid := 8, entity_id := 1, interaction_type := "event",
                 interaction_data := "old3", created_at := -9,
                 summary := some "s", embedding := some [1] } ],
    tier4 := [ { rid := 6, entity_id := 1 } ] }

/-- `n` tier-1 rows for entity 1. -/
def mkT1Rows (n : Nat) : List Tier1Rec :=
  (List.range n).map (fun i =>
    { rid := i, entity_id := 1, interaction_type := "event",
      interaction_data := "", created_at := 0 })

/-- `n` tier-2 rows for entity 1. -/
def mkT2Rows (n : Nat) : List Tier2Rec :=
  (List.range n).map (fun i =>
    { rid := i, entity_id := 1, interaction_type := "event",
      interaction_data := "", created_at := 0 })

/-- 100 tier-1 rows and 90 tier-2 rows (ratio 0.9 > 0.8). -/
def imbalanceStore90 : Store :=
  { tier1 := mkT1Rows 100, tier2 := mkT2Rows 90, tier3 := [], tier4 := [] }

/-- 100 tier-1 rows and 50 tier-2 rows (ratio 0.5 ≤ 0.8). -/
def imbalanceStore50 : Store :=
  { tier1 := mkT1Rows 100, tier2 := mkT2Rows 50, tier3 := [], tier4 := [] }

/-- A store with `n` tier-1 rows for entity 1, all with `created_at = -1`
(older than cutoff 0). -/
def unboundedStore (n : Nat) : Store :=
  { tier1 := (List.range n).map (fun i =>
      { rid := i, entity_id := 1, interaction_type := "event",
        interaction_data := "", created_at := -1 }),
    tier2 := [], tier3 := [], tier4 := [] }

/-- Store with one old event record (selected by cutoff 0). -/
def c9Store : Store :=
  { tier1 := [ { rid := 11, entity_id := 1, interaction_type := "event",
                 interaction_data := "x", created_at := -2 } ],
    tier2 := [], tier3 := [], tier4 := [] }

/-- A non-event record used to instantiate the importance-range theorem. -/
def c10ConvRec : Tier1Rec :=
  { rid := 0, entity_id := 0, interaction_type := "conversation",
    interaction_data := "x", created_at := 0 }

/-! ### Helper lemmas on the consolidation loop -/

theorem consolidateStep_tier2Case (eid : Nat) (st : LoopState) (m : Tier1Rec)
    (h : 7 < evaluateImportance m) :
    consolidateStep eid st m =
      { sess := { newT2 := st.sess.newT2 ++ [toTier2 eid m], newT3 := st.sess.newT3,
                  deletedT1 := st.sess.deletedT1 ++ [m.rid] },
        t2 := st.t2 + 1, t3 := st.t3, arch := st.arch } := by
  simp [consolidateStep, h]

theorem consolidateStep_tier3Case (eid : Nat) (st : LoopState) (m : Tier1Rec)
    (h7 : ¬ 7 < evaluateImportance m) (h4 : 4 < evaluateImportance m) :
    consolidateStep eid st m =
      { sess := { newT2 := st.sess.newT2, newT3 := st.sess.newT3 ++ [toTier3 eid m],
                  deletedT1 := st.sess.deletedT1 ++ [m.rid] },
        t2 := st.t2, t3 := st.t3 + 1, arch := st.arch } := by
  simp [consolidateStep, h7, h4]

theorem consolidateStep_archiveCase (eid : Nat) (st : LoopState) (m : Tier1Rec)
    (h7 : ¬ 7 < evaluateImportance m) (h4 : ¬ 4 < evaluateImportance m) :
    consolidateStep eid st m =
      { sess := { newT2 := st.sess.newT2, newT3 := st.sess.newT3,
                  deletedT1 := st.sess.deletedT1 ++ [m.rid] },
        t2 := st.t2, t3 := st.t3, arch := st.arch + 1 } := by
  simp [consolidateStep, h7, h4]

/-- Full characterization of the `for memory in old_memories` loop: the staged
session holds exactly the successor rows of the records routed to each tier
plus one pending delete per record, and the counters count the three routing
classes. -/
theorem consolidateLoop_spec (eid : Nat) (l : List Tier1Rec) (st0 : LoopState) :
    (l.foldl (consolidateStep eid) st0).sess.newT2
        = st0.sess.newT2 ++ (l.filter routesToTier2).map (toTier2 eid)
  ∧ (l.foldl (consolidateStep eid) st0).sess.newT3
        = st0.sess.newT3 ++ (l.filter routesToTier3).map (toTier3 eid)
  ∧ (l.foldl (consolidateStep eid) st0).sess.deletedT1
        = st0.sess.deletedT1 ++ l.map (fun m => m.rid)
  ∧ (l.foldl (consolidateStep eid) st0).t2
        = st0.t2 + (l.filter routesToTier2).length
  ∧ (l.foldl (consolidateStep eid) st0).t3
        = st0.t3 + (l.filter routesToTier3).length
  ∧ (l.foldl (consolidateStep eid) st0).arch
        = st0.arch + (l.filter isDiscarded).length := by
  induction l generalizing st0 with
  | nil => simp
  | cons a l ih =>
    rw [List.foldl_cons]
    by_cases h7 : 7 < evaluateImportance a
    · have hr2 : routesToTier2 a = true := by simp [routesToTier2, h7]
      have hr3 : routesToTier3 a = false := by simp [routesToTier3, h7]
      have hd : isDiscarded a = false := by simp [isDiscarded, h7]
      rw [consolidateStep_tier2Case eid st0 a h7]
      obtain ⟨h1, h2, h3, h4, h5, h6⟩ :=
        ih { sess := { newT2 := st0.sess.newT2 ++ [toTier2 eid a], newT3 := st0.sess.newT3,
                       deletedT1 := st0.sess.deletedT1 ++ [a.rid] },
             t2 := st0.t2 + 1, t3 := st0.t3, arch := st0.arch }
      refine ⟨?_, ?_, ?_, ?_, ?_, ?_⟩
      · simp [h1, List.filter_cons, hr2]
      · simp [h2, List.filter_cons, hr3]
      · simp [h3]
      · rw [h4]; simp only [List.filter_cons, hr2, if_true, List.length_cons]; omega
      · rw [h5]; simp only [List.filter_cons, hr3, if_false, Bool.false_eq_true]
      · rw [h6]; simp only [List.filter_cons, hd, if_false, Bool.false_eq_true]
    · by_cases h4' : 4 < evaluateImportance a
      · have hr2 : routesToTier2 a = false := by simp [routesToTier2, h7]
        have hr3 : routesToTier3 a = true := by simp [routesToTier3, h7, h4']
        have hd : isDiscarded a = false := by simp [isDiscarded, h7, h4']
        rw [consolidateStep_tier3Case eid st0 a h7 h4']
        obtain ⟨h1, h2, h3, h4, h5, h6⟩ :=
          ih { sess := { newT2 := st0.sess.newT2, newT3 := st0.sess.newT3 ++ [toTier3 eid a],
                         deletedT1 := st0.sess.deletedT1 ++ [a.rid] },
               t2 := st0.t2, t3 := st0.t3 + 1, arch := st0.arch }
        refine ⟨?_, ?_, ?_, ?_, ?_, ?_⟩
        · simp [h1, List.filter_cons, hr2]
        · simp [h2, List.filter_cons, hr3]
        · simp [h3]
        · rw [h4]; simp only [List.filter_cons, hr2, if_false, Bool.false_eq_true]
        · rw [h5]; simp only [List.filter_cons, hr3, if_true, List.length_cons]; omega
        · rw [h6]; simp only [List.filter_cons, hd, if_false, Bool.false_eq_true]
      · have hr2 : routesToTier2 a = false := by simp [routesToTier2, h7]
        have hr3 : routesToTier3 a = false := by simp [routesToTier3, h7, h4']
        have hd : isDiscarded a = true := by simp [isDiscarded, h7, h4']
        rw [consolidateStep_archiveCase eid st0 a h7 h4']
        obtain ⟨h1, h2, h3, h4, h5, h6⟩ :=
          ih { sess := { newT2 := st0.sess.newT2, newT3 := st0.sess.newT3,
                         deletedT1 := st0.sess.deletedT1 ++ [a.rid] },
               t2 := st0.t2, t3 := st0.t3, arch := st0.arch + 1 }
        refine ⟨?_, ?_, ?_, ?_, ?_, ?_⟩
        · simp [h1, List.filter_cons, hr2]
        · simp [h2, List.filter_cons, hr3]
        · simp [h3]
        · rw [h4]; simp only [List.filter_cons, hr2, if_false, Bool.false_eq_true]
        · rw [h5]; simp only [List.filter_cons, hr3, if_false, Bool.false_eq_true]
        · rw [h6]; simp only [List.filter_cons, hd, if_true, List.length_cons]; omega

/-- Every selected record lands in exactly one of the three routing classes. -/
theorem routing_partition (l : List Tier1Rec) :
    (l.filter routesToTier2).length + (l.filter routesToTier3).length
      + (l.filter isDiscarded).length = l.length := by
  induction l with
  | nil => simp
  | cons a l ih =>
    by_cases h7 : 7 < evaluateImportance a
    · have hr2 : routesToTier2 a = true := by simp [routesToTier2, h7]
      have hr3 : routesToTier3 a = false := by simp [routesToTier3, h7]
      have hd : isDiscarded a = false := by simp [isDiscarded, h7]
      simp only [List.filter_cons, hr2, hr3, hd, if_true, if_false, Bool.false_eq_true,
        List.length_cons]
      omega
    · by_cases h4 : 4 < evaluateImportance a
      · have hr2 : routesToTier2 a = false := by simp [routesToTier2, h7]
        have hr3 : routesToTier3 a = true := by simp [routesToTier3, h7, h4]
        have hd : isDiscarded a = false := by simp [isDiscarded, h7, h4]
        simp only [List.filter_cons, hr2, hr3, hd, if_true, if_false, Bool.false_eq_true,
          List.length_cons]
        omega
      · have hr2 : routesToTier2 a = false := by simp [routesToTier2, h7]
        have hr3 : routesToTier3 a = false := by simp [routesToTier3, h7, h4]
        have hd : isDiscarded a = true := by simp [isDiscarded, h7, h4]
        simp only [List.filter_cons, hr2, hr3, hd, if_true, if_false, Bool.false_eq_true,
          List.length_cons]
        omega

/-- With distinct tier-1 primary keys, deleting by the selected keys is the
same as removing exactly the selected rows. -/
theorem deleteByRid_eq_filterNotSel (eid : Nat) (cutoff : Int) (st : Store)
    (h : (st.tier1.map (fun r => r.rid)).Nodup) :
    st.tier1.filter
        (fun r => !(decide (r.rid ∈ (selectOldMemories eid cutoff st).map (fun m => m.rid))))
      = st.tier1.filter (fun r => !(selPred eid cutoff r)) := by
  apply List.filter_congr
  intro r hr
  have hinj := List.inj_on_of_nodup_map h
  congr 1
  cases hsel : selPred eid cutoff r with
  | true =>
    have hmem : r ∈ selectOldMemories eid cutoff st :=
      List.mem_filter.mpr ⟨hr, hsel⟩
    have hrid : r.rid ∈ (selectOldMemories eid cutoff st).map (fun m => m.rid) :=
      List.mem_map.mpr ⟨r, hmem, rfl⟩
    simp [hrid]
  | false =>
    simp only [decide_eq_true_eq, List.mem_map]
    rw [decide_eq_false_iff_not]
    rintro ⟨m, hm, hmr⟩
    have hm1 : m ∈ st.tier1 := (List.mem_filter.mp hm).1
    have hmsel : selPred eid cutoff m = true := (List.mem_filter.mp hm).2
    have heq : m = r := hinj hm1 hr hmr
    rw [heq] at hmsel
    rw [hmsel] at hsel
    exact Bool.noConfusion hsel

/-- The store component threaded through the consolidation loop is never
written: only the session accumulates pending work. -/
theorem consolidateScan_fst (eid : Nat) (l : List Tier1Rec) (p : Store × LoopState) :
    (l.foldl (fun (q : Store × LoopState) m => (q.1, consolidateStep eid q.2 m)) p).1 = p.1 := by
  induction l generalizing p with
  | nil => rfl
  | cons a l ih => rw [List.foldl_cons, ih]

/-- A run that fails after any number of loop iterations, before
`db.commit()`, leaves the store exactly as it was. -/
theorem consolidateAborted_unchanged (eid : Nat) (now : Int) (days : Nat)
    (st : Store) (k : Nat) :
    consolidateAborted eid now days st k = st := by
  unfold consolidateAborted
  exact consolidateScan_fst eid _ _

/-- Characterization of the store after a committed `consolidate` run, given
distinct tier-1 primary keys: tier 1 loses exactly the selected rows, tiers 2
and 3 gain exactly the successor rows of the records routed to them, and
tier 4 is untouched. -/
theorem consolidate_store_spec (eid : Nat) (now : Int) (days : Nat) (st : Store)
    (h : (st.tier1.map (fun r => r.rid)).Nodup) :
    (consolidate eid now days st).1.tier1
        = st.tier1.filter (fun r => !(selPred eid (cutoffFor now days) r))
  ∧ (consolidate eid now days st).1.tier2
        = st.tier2 ++
            ((selectOldMemories eid (cutoffFor now days) st).filter routesToTier2).map (toTier2 eid)
  ∧ (consolidate eid now days st).1.tier3
        = st.tier3 ++
            ((selectOldMemories eid (cutoffFor now days) st).filter routesToTier3).map (toTier3 eid)
  ∧ (consolidate eid now days st).1.tier4 = st.tier4 := by
  by_cases hempty : (selectOldMemories eid (cutoffFor now days) st).isEmpty
  · have hnil : selectOldMemories eid (cutoffFor now days) st = [] :=
      List.isEmpty_iff.mp hempty
    have hall : st.tier1.filter (fun r => !(selPred eid (cutoffFor now days) r)) = st.tier1 := by
      rw [List.filter_eq_self]
      intro r hr
      cases hsel : selPred eid (cutoffFor now days) r with
      | false => rfl
      | true =>
        have : r ∈ selectOldMemories eid (cutoffFor now days) st :=
          List.mem_filter.mpr ⟨hr, hsel⟩
        rw [hnil] at this
        exact absurd this (List.not_mem_nil r)
    simp [consolidate, hempty, hnil, hall]
  · obtain ⟨h1, h2, h3, _, _, _⟩ :=
      consolidateLoop_spec eid (selectOldMemories eid (cutoffFor now days) st) initLoopState
    simp only [initLoopState, emptySession, List.nil_append] at h1 h2 h3
    simp only [consolidate, hempty, if_false, Bool.false_eq_true, commitSession,
      initLoopState, emptySession]
    refine ⟨?_, ?_, ?_, trivial⟩
    · simp only [h3]
      exact deleteByRid_eq_filterNotSel eid (cutoffFor now days) st h
    · simp only [h1]
    · simp only [h2]

/-- Characterization of the counts `consolidate` returns: `processed` is the
size of the selection, and the three counters count the routing classes. -/
theorem consolidate_counts_spec (eid : Nat) (now : Int) (days : Nat) (st : Store) :
    (consolidate eid now days st).2.memories_processed
        = (selectOldMemories eid (cutoffFor now days) st).length
  ∧ (consolidate eid now days st).2.moved_to_tier2
        = ((selectOldMemories eid (cutoffFor now days) st).filter routesToTier2).length
  ∧ (consolidate eid now days st).2.moved_to_tier3
        = ((selectOldMemories eid (cutoffFor now days) st).filter routesToTier3).length
  ∧ (consolidate eid now days st).2.archived
        = ((selectOldMemories eid (cutoffFor now days) st).filter isDiscarded).length := by
  by_cases hempty : (selectOldMemories eid (cutoffFor now days) st).isEmpty
  · have hnil : selectOldMemories eid (cutoffFor now days) st = [] :=
      List.isEmpty_iff.mp hempty
    simp [consolidate, hempty, hnil]
  · obtain ⟨_, _, _, h4, h5, h6⟩ :=
      consolidateLoop_spec eid (selectOldMemories eid (cutoffFor now days) st) initLoopState
    simp only [initLoopState, emptySession, Nat.zero_add] at h4 h5 h6
    simp only [consolidate, hempty, if_false, Bool.false_eq_true, initLoopState, emptySession]
    exact ⟨trivial, h4, h5, h6⟩

/-- The `elif` structure makes the tier-3 branch exactly the scores in
(0.4, 0.7]. -/
theorem routesToTier3_strict (l : List Tier1Rec) :
    l.filter routesToTier3
      = l.filter (fun m =>
          decide (4 < evaluateImportance m) && decide (evaluateImportance m ≤ 7)) := by
  apply List.filter_congr
  intro m _
  by_cases h7 : 7 < evaluateImportance m
  · have hn : ¬ evaluateImportance m ≤ 7 := by omega
    simp [routesToTier3, h7, hn]
  · have hy : evaluateImportance m ≤ 7 := by omega
    by_cases h4 : 4 < evaluateImportance m
    · simp [routesToTier3, h7, hy, h4]
    · simp [routesToTier3, h7, h4]

/-- The `else` branch is exactly the scores ≤ 0.4. -/
theorem isDiscarded_strict (l : List Tier1Rec) :
    l.filter isDiscarded
      = l.filter (fun m => decide (evaluateImportance m ≤ 4)) := by
  apply List.filter_congr
  intro m _
  by_cases h4 : 4 < evaluateImportance m
  · have hn : ¬ evaluateImportance m ≤ 4 := by omega
    simp [isDiscarded, h4, hn]
  · have h7 : ¬ 7 < evaluateImportance m := by omega
    have hy : evaluateImportance m ≤ 4 := by omega
    simp [isDiscarded, h4, h7, hy]

/-- After a committed pass, a second selection with the same cutoff is empty:
every surviving tier-1 row fails the selection predicate. -/
theorem selectOld_after_consolidate (eid : Nat) (now : Int) (days : Nat) (st : Store)
    (h : (st.tier1.map (fun r => r.rid)).Nodup) :
    selectOldMemories eid (cutoffFor now days) ((consolidate eid now days st).1) = [] := by
  have h1 := (consolidate_store_spec eid now days st h).1
  unfold selectOldMemories
  rw [h1, List.filter_filter]
  apply List.filter_eq_nil_iff.mpr
  intro a _
  simp [Bool.and_not_self]

/-! ### The claims -/

/-- C1 (counterexample): the spec's inclusive thresholds fail on the code.  A
conversation record mentioning "important" scores exactly 0.7 (7 tenths), so
the claim demands tier 2; the code's strict `> 0.7` routes it to tier 3.  A
plain event record scores exactly 0.4, so the claim demands tier 3; the
code's strict `> 0.4` discards it. -/
theorem routing_thresholds_c1_cex :
    evaluateImportance c1ConvRec = 7
  ∧ evaluateImportance c1EventRec = 4
  ∧ (consolidate 1 0 0 c1Store).2.moved_to_tier2 = 0
  ∧ (consolidate 1 0 0 c1Store).2.moved_to_tier3 = 1
  ∧ (consolidate 1 0 0 c1Store).2.archived = 1
  ∧ (consolidate 1 0 0 c1Store).1.tier2 = []
  ∧ (consolidate 1 0 0 c1Store).1.tier3 = [toTier3 1 c1ConvRec] := by
  decide

/-- C1 (amended): for every tier-1 record selected by a consolidation pass
(with distinct primary keys), routing is strict in the score: score > 0.7
creates a tier-2 successor, 0.4 < score ≤ 0.7 creates a tier-3 successor,
and score ≤ 0.4 is discarded — counted (as `archived`) with no successor
row.  The successor rows carry the original type and data; no summary or
embedding is generated. -/
theorem routing_thresholds_c1_amended (eid : Nat) (now : Int) (days : Nat) (st : Store)
    (h : (st.tier1.map (fun r => r.rid)).Nodup) :
    (consolidate eid now days st).1.tier2
        = st.tier2 ++ ((selectOldMemories eid (cutoffFor now days) st).filter
            (fun m => decide (7 < evaluateImportance m))).map (toTier2 eid)
  ∧ (consolidate eid now days st).1.tier3
        = st.tier3 ++ ((selectOldMemories eid (cutoffFor now days) st).filter
            (fun m => decide (4 < evaluateImportance m)
              && decide (evaluateImportance m ≤ 7))).map (toTier3 eid)
  ∧ (consolidate eid now days st).2.archived
        = ((selectOldMemories eid (cutoffFor now days) st).filter
            (fun m => decide (evaluateImportance m ≤ 4))).length := by
  obtain ⟨_, h2, h3, _⟩ := consolidate_store_spec eid now days st h
  obtain ⟨_, _, _, h6⟩ := consolidate_counts_spec eid now days st
  refine ⟨h2, ?_, ?_⟩
  · rw [h3, routesToTier3_strict]
  · rw [h6, isDiscarded_strict]

/-- C1 (amended) instantiated at the boundary store. -/
theorem routing_thresholds_c1_amended_witness :
    ((c1Store.tier1.map (fun r => r.rid)).Nodup)
  ∧ (consolidate 1 0 0 c1Store).1.tier3
      = c1Store.tier3 ++ ((selectOldMemories 1 (cutoffFor 0 0) c1Store).filter
          (fun m => decide (4 < evaluateImportance m)
            && decide (evaluateImportance m ≤ 7))).map (toTier3 1) :=
  ⟨by decide, (routing_thresholds_c1_amended 1 0 0 c1Store (by decide)).2.1⟩

/-- C2: the batch is atomic.  A failure after any number of loop iterations,
before `db.commit()`, leaves the store unchanged (every source row present,
no destination row written); a committed run deletes exactly the selected
tier-1 rows and appends exactly the destination tier-2/tier-3 rows, in one
application of the staged session. -/
theorem consolidate_atomic_c2 (eid : Nat) (now : Int) (days : Nat) (st : Store)
    (h : (st.tier1.map (fun r => r.rid)).Nodup) :
    (∀ k : Nat, consolidateAborted eid now days st k = st)
  ∧ (consolidate eid now days st).1.tier1
      = st.tier1.filter (fun r => !(selPred eid (cutoffFor now days) r))
  ∧ (consolidate eid now days st).1.tier2
      = st.tier2 ++
          ((selectOldMemories eid (cutoffFor now days) st).filter routesToTier2).map (toTier2 eid)
  ∧ (consolidate eid now days st).1.tier3
      = st.tier3 ++
          ((selectOldMemories eid (cutoffFor now days) st).filter routesToTier3).map (toTier3 eid)
  ∧ (consolidate eid now days st).1.tier4 = st.tier4 := by
  obtain ⟨h1, h2, h3, h4⟩ := consolidate_store_spec eid now days st h
  exact ⟨fun k => consolidateAborted_unchanged eid now days st k, h1, h2, h3, h4⟩

/-- C2 instantiated at a two-record store. -/
theorem consolidate_atomic_c2_witness :
    ((c2Store.tier1.map (fun r => r.rid)).Nodup)
  ∧ consolidateAborted 1 0 0 c2Store 1 = c2Store
  ∧ (consolidate 1 0 0 c2Store).1.tier1
      = c2Store.tier1.filter (fun r => !(selPred 1 (cutoffFor 0 0) r)) :=
  ⟨by decide, (consolidate_atomic_c2 1 0 0 c2Store (by decide)).1 1,
   (consolidate_atomic_c2 1 0 0 c2Store (by decide)).2.1⟩

/-- C3: migration is idempotent.  Running `consolidate` again with the same
cutoff on the committed result selects nothing, changes nothing, and reports
zero processed records. -/
theorem consolidate_idempotent_c3 (eid : Nat) (now : Int) (days : Nat) (st : Store)
    (h : (st.tier1.map (fun r => r.rid)).Nodup) :
    (consolidate eid now days ((consolidate eid now days st).1)).1
        = (consolidate eid now days st).1
  ∧ (consolidate eid now days ((consolidate eid now days st).1)).2.memories_processed = 0
  ∧ (consolidate eid now days ((consolidate eid now days st).1)).2.status
        = "no_consolidation_needed" := by
  have hnil := selectOld_after_consolidate eid now days st h
  generalize hg : (consolidate eid now days st).1 = st1 at hnil ⊢
  refine ⟨?_, ?_, ?_⟩ <;> simp [consolidate, hnil]

/-- C3 instantiated at a one-record store. -/
theorem consolidate_idempotent_c3_witness :
    ((c3Store.tier1.map (fun r => r.rid)).Nodup)
  ∧ (consolidate 1 0 0 ((consolidate 1 0 0 c3Store).1)).1 = (consolidate 1 0 0 c3Store).1
  ∧ (consolidate 1 0 0 ((consolidate 1 0 0 c3Store).1)).2.memories_processed = 0 :=
  ⟨by decide, (consolidate_idempotent_c3 1 0 0 c3Store (by decide)).1,
   (consolidate_idempotent_c3 1 0 0 c3Store (by decide)).2.1⟩

/-- C4: fail-open retrieval.  When the judgment call fails or its output is
unparseable (`none`) and the gathered pool is non-empty, `retrieve` returns
the pool itself — unranked, each candidate carrying the neutral default
score 0.5 — truncated to `max_results`, hence between 1 and `max_results`
results, never empty and never an error. -/
theorem retrieve_fail_open_c4 (eid maxResults : Nat) (includeTiers : List Nat) (st : Store)
    (hmax : 1 ≤ maxResults)
    (hpool : gatherCandidates eid includeTiers st ≠ []) :
    retrieveMems none eid maxResults includeTiers st
        = ((gatherCandidates eid includeTiers st).map
            (fun m => { m with relevance_score := some defaultScore })).take maxResults
  ∧ (retrieveMems none eid maxResults includeTiers st).length
        = min maxResults (gatherCandidates eid includeTiers st).length
  ∧ 1 ≤ (retrieveMems none eid maxResults includeTiers st).length
  ∧ (retrieveMems none eid maxResults includeTiers st).length ≤ maxResults
  ∧ ∀ m ∈ retrieveMems none eid maxResults includeTiers st,
      m.relevance_score = some defaultScore := by
  have hne : (gatherCandidates eid includeTiers st).isEmpty = false := by
    cases hx : gatherCandidates eid includeTiers st with
    | nil => exact absurd hx hpool
    | cons a l => rfl
  have heq : retrieveMems none eid maxResults includeTiers st
      = ((gatherCandidates eid includeTiers st).map
          (fun m => { m with relevance_score := some defaultScore })).take maxResults := by
    unfold retrieveMems
    simp [hne, rankByRelevance]
  have hlen0 : 0 < (gatherCandidates eid includeTiers st).length :=
    List.length_pos.mpr hpool
  refine ⟨heq, ?_, ?_, ?_, ?_⟩
  · rw [heq, List.length_take, List.length_map]
  · rw [heq, List.length_take, List.length_map]; omega
  · rw [heq, List.length_take, List.length_map]; omega
  · intro m hm
    rw [heq] at hm
    have hm2 := List.take_subset maxResults _ hm
    obtain ⟨x, _, rfl⟩ := List.mem_map.mp hm2
    rfl

/-- C4 instantiated: one candidate, failing judgment, 10 requested. -/
theorem retrieve_fail_open_c4_witness :
    (1 ≤ 10)
  ∧ gatherCandidates 1 [1, 2, 3] c4Store ≠ []
  ∧ 1 ≤ (retrieveMems none 1 10 [1, 2, 3] c4Store).length :=
  ⟨by decide, by decide,
   (retrieve_fail_open_c4 1 10 [1, 2, 3] c4Store (by decide) (by decide)).2.2.1⟩

/-- C5 (counterexample): the 0.3 relevance floor is not enforced by the code.
With a successful judgment ranking that returns index 0 with score 0.1, the
single candidate is returned carrying score 0.1 < 0.3 instead of being
excluded. -/
theorem relevance_floor_c5_cex :
    (retrieveMems (some { ranked_indices := [0], relevance_scores := [1/10] })
        1 10 [1] c5Store).map (fun m => m.relevance_score) = [some (1/10)]
  ∧ (retrieveMems (some { ranked_indices := [0], relevance_scores := [1/10] })
        1 10 [1] c5Store).length = 1
  ∧ (1/10 : ℚ) < 3/10 := by
  refine ⟨rfl, rfl, by norm_num⟩

/-- C5 (amended): the floor is only requested in the prompt text; the code
includes every candidate whose judgment-returned index is in range,
whatever its score.  The ranking loop's output size equals the number of
in-range indices and is independent of the score vector. -/
theorem relevance_floor_c5_amended (memories : List MemCandidate) (scores scores' : List ℚ)
    (i : Nat) (idxs : List Nat) :
    (rankLoop memories scores i idxs).length
        = (idxs.filter (fun idx => decide (idx < memories.length))).length
  ∧ (rankLoop memories scores i idxs).length = (rankLoop memories scores' i idxs).length := by
  have key : ∀ (sc : List ℚ) (j : Nat) (ix : List Nat),
      (rankLoop memories sc j ix).length
        = (ix.filter (fun idx => decide (idx < memories.length))).length := by
    intro sc j ix
    induction ix generalizing j with
    | nil => rfl
    | cons idx rest ih =>
      by_cases hlt : idx < memories.length
      · obtain ⟨m, hm⟩ : ∃ m, memories.get? idx = some m :=
          ⟨memories.get ⟨idx, hlt⟩, List.get?_eq_get hlt⟩
        simp only [rankLoop, hm]
        simp [List.filter_cons, hlt, ih (j + 1)]
      · have hnone : memories.get? idx = none := by
          rw [List.get?_eq_none]
          omega
        simp only [rankLoop, hnone]
        simp [List.filter_cons, hlt, ih (j + 1)]
  exact ⟨key scores i idxs, by rw [key scores i idxs, key scores' i idxs]⟩

/-- C6: evaluating the code at the failing input.  A conversation record
(score 0.5, tier-3 branch) produces a tier-3 successor row whose `summary`
and `embedding` are both absent, although the schema declares `summary`
NOT NULL and the spec requires both fields on every tier-3 row. -/
theorem tier3_missing_summary_c6 :
    (consolidate 1 0 0 c6Store).1.tier3
        = [ { rid := 0, entity_id := 1, interaction_type := "conversation",
              interaction_data := "chat", created_at := -1,
              summary := none, embedding := none } ]
  ∧ ∀ r ∈ (consolidate 1 0 0 c6Store).1.tier3,
      r.summary = none ∧ r.embedding = none := by
  decide

/-- Splitting the per-entity tier-1 count by the selection predicate. -/
theorem stats_tier1_split (eid : Nat) (c : Int) (l : List Tier1Rec) :
    ((l.filter (fun r => !(selPred eid c r))).filter (fun r => r.entity_id == eid)).length
      + (l.filter (selPred eid c)).length
    = (l.filter (fun r => r.entity_id == eid)).length := by
  induction l with
  | nil => simp
  | cons a l ih =>
    by_cases he : (a.entity_id == eid) = true
    · by_cases ho : (decide (a.created_at < c)) = true
      · have hs : selPred eid c a = true := by simp [selPred, he, ho]
        simp only [List.filter_cons, hs, he, Bool.not_true, if_true, if_false,
          Bool.false_eq_true, List.length_cons]
        omega
      · have hs : selPred eid c a = false := by simp [selPred, he, ho]
        simp only [List.filter_cons, hs, he, Bool.not_false, if_true, if_false,
          Bool.false_eq_true, List.length_cons]
        omega
    · have hs : selPred eid c a = false := by simp [selPred, he]
      simp only [List.filter_cons, hs, he, Bool.not_false, if_true, if_false,
        Bool.false_eq_true, List.length_cons]
      omega

/-- Tier-2 successor rows all belong to the consolidated entity. -/
theorem filterEnt_map_toTier2 (eid : Nat) (xs : List Tier1Rec) :
    (xs.map (toTier2 eid)).filter (fun r => r.entity_id == eid) = xs.map (toTier2 eid) := by
  rw [List.filter_eq_self]
  intro r hr
  obtain ⟨m, _, rfl⟩ := List.mem_map.mp hr
  simp [toTier2]

/-- Tier-3 successor rows all belong to the consolidated entity. -/
theorem filterEnt_map_toTier3 (eid : Nat) (xs : List Tier1Rec) :
    (xs.map (toTier3 eid)).filter (fun r => r.entity_id == eid) = xs.map (toTier3 eid) := by
  rw [List.filter_eq_self]
  intro r hr
  obtain ⟨m, _, rfl⟩ := List.mem_map.mp hr
  simp [toTier3]

/-- C7: the returned counts satisfy
`processed = moved_to_tier2 + moved_to_tier3 + archived`; every selected
record is gone from tier 1; and `GetStats` afterwards shows tier 1 reduced
by `processed`, tier 2 increased by `moved_to_tier2` and tier 3 increased by
`moved_to_tier3`. -/
theorem consolidate_counts_stats_c7 (eid : Nat) (now : Int) (days : Nat) (st : Store)
    (h : (st.tier1.map (fun r => r.rid)).Nodup) :
    (consolidate eid now days st).2.memories_processed
        = (consolidate eid now days st).2.moved_to_tier2
          + (consolidate eid now days st).2.moved_to_tier3
          + (consolidate eid now days st).2.archived
  ∧ (∀ m ∈ selectOldMemories eid (cutoffFor now days) st,
        m ∉ (consolidate eid now days st).1.tier1)
  ∧ (getMemoryStats eid st).tier1_hot
      = (getMemoryStats eid ((consolidate eid now days st).1)).tier1_hot
        + (consolidate eid now days st).2.memories_processed
  ∧ (getMemoryStats eid ((consolidate eid now days st).1)).tier2_working
      = (getMemoryStats eid st).tier2_working + (consolidate eid now days st).2.moved_to_tier2
  ∧ (getMemoryStats eid ((consolidate eid now days st).1)).tier3_reference
      = (getMemoryStats eid st).tier3_reference
        + (consolidate eid now days st).2.moved_to_tier3 := by
  obtain ⟨hc1, hc2, hc3, hc4⟩ := consolidate_counts_spec eid now days st
  obtain ⟨hs1, hs2, hs3, _⟩ := consolidate_store_spec eid now days st h
  refine ⟨?_, ?_, ?_, ?_, ?_⟩
  · rw [hc1, hc2, hc3, hc4]
    exact (routing_partition _).symm
  · intro m hm hmem
    rw [hs1] at hmem
    have hnot := (List.mem_filter.mp hmem).2
    have hsel := (List.mem_filter.mp hm).2
    rw [hsel] at hnot
    exact Bool.noConfusion hnot
  · simp only [getMemoryStats, hs1, hc1]
    have := stats_tier1_split eid (cutoffFor now days) st.tier1
    unfold selectOldMemories
    omega
  · simp only [getMemoryStats, hs2, hc2]
    rw [List.filter_append, List.length_append, filterEnt_map_toTier2, List.length_map]
  · simp only [getMemoryStats, hs3, hc3]
    rw [List.filter_append, List.length_append, filterEnt_map_toTier3, List.length_map]

/-- C7 instantiated at a four-record store with pre-existing rows in every
destination tier. -/
theorem consolidate_counts_stats_c7_witness :
    ((c7Store.tier1.map (fun r => r.rid)).Nodup)
  ∧ (consolidate 1 0 0 c7Store).2.memories_processed
      = (consolidate 1 0 0 c7Store).2.moved_to_tier2
        + (consolidate 1 0 0 c7Store).2.moved_to_tier3
        + (consolidate 1 0 0 c7Store).2.archived
  ∧ (getMemoryStats 1 ((consolidate 1 0 0 c7Store).1)).tier2_working
      = (getMemoryStats 1 c7Store).tier2_working
        + (consolidate 1 0 0 c7Store).2.moved_to_tier2 :=
  ⟨by decide, (consolidate_counts_stats_c7 1 0 0 c7Store (by decide)).1,
   (consolidate_counts_stats_c7 1 0 0 c7Store (by decide)).2.2.2.1⟩

/-- C8: `check_coherence` (standard depth) reports the medium-severity
`tier_imbalance` issue exactly when `tier2_count > tier1_count * 0.8`
(embedded exactly as `5 * tier2 > 4 * tier1`); in particular it is reported
at counts 100/90 and not at 100/50. -/
theorem tier_imbalance_c8 (eid : Nat) (now : Int) (dIss : List Issue) (st : Store) :
    (imbalanceIssue ∈ (checkCoherence eid now "standard" dIss st).issues
      ↔ 4 * (st.tier1.filter (fun r => r.entity_id == eid)).length
          < 5 * (st.tier2.filter (fun r => r.entity_id == eid)).length)
  ∧ imbalanceIssue.severity = "medium"
  ∧ imbalanceIssue.itype = "tier_imbalance"
  ∧ imbalanceIssue ∈ (checkCoherence 1 0 "standard" [] imbalanceStore90).issues
  ∧ imbalanceIssue ∉ (checkCoherence 1 0 "standard" [] imbalanceStore50).issues := by
  have hsplit : ∀ (a : List Issue) (n : Nat),
      (imbalanceIssue ∈ (if 100 < n then a ++ [staleIssue n] else a)) ↔ imbalanceIssue ∈ a := by
    intro a n
    by_cases hst : 100 < n
    · rw [if_pos hst]
      simp [List.mem_append, staleIssue, imbalanceIssue]
    · rw [if_neg hst]
  have hmain : ∀ (eid' : Nat) (now' : Int) (dIss' : List Issue) (st' : Store),
      (imbalanceIssue ∈ (checkCoherence eid' now' "standard" dIss' st').issues
        ↔ 4 * (st'.tier1.filter (fun r => r.entity_id == eid')).length
            < 5 * (st'.tier2.filter (fun r => r.entity_id == eid')).length) := by
    intro eid' now' dIss' st'
    simp only [checkCoherence]
    rw [if_neg (by decide : ¬ ((("standard" : String) == "deep") = true))]
    rw [hsplit]
    by_cases himb : imbalanceExceeded
        (st'.tier1.filter (fun r => r.entity_id == eid')).length
        (st'.tier2.filter (fun r => r.entity_id == eid')).length = true
    · rw [if_pos himb]
      unfold imbalanceExceeded at himb
      have hp := of_decide_eq_true himb
      simp [hp]
    · rw [if_neg himb]
      unfold imbalanceExceeded at himb
      have hp : ¬ (4 * (st'.tier1.filter (fun r => r.entity_id == eid')).length
          < 5 * (st'.tier2.filter (fun r => r.entity_id == eid')).length) := by
        intro hc
        exact himb (decide_eq_true hc)
      simp [hp]
  refine ⟨hmain eid now dIss st, rfl, rfl, ?_, ?_⟩
  · exact (hmain 1 0 [] imbalanceStore90).mpr (by decide)
  · intro hmem
    exact absurd ((hmain 1 0 [] imbalanceStore50).mp hmem) (by decide)

/-- The selection over the `n`-record store of old rows returns all `n`
rows. -/
theorem selectOld_unboundedStore (n : Nat) :
    (selectOldMemories 1 0 (unboundedStore n)).length = n := by
  have hall : ∀ r ∈ (List.range n).map (fun i =>
      ({ rid := i, entity_id := 1, interaction_type := "event",
         interaction_data := "", created_at := -1 } : Tier1Rec)),
      selPred 1 0 r = true := by
    intro r hr
    obtain ⟨i, _, rfl⟩ := List.mem_map.mp hr
    rfl
  simp only [selectOldMemories, unboundedStore]
  rw [List.filter_eq_self.mpr hall, List.length_map, List.length_range]

/-- C9 (counterexample): the selection is not bounded by any maximum batch
size.  At a concrete store of 200 old rows all 200 are selected (exceeding
every cap appearing in the service, 100 and 50), and no bound `B` covers
every store. -/
theorem selection_unbounded_c9_cex :
    (selectOldMemories 1 0 (unboundedStore 200)).length = 200
  ∧ ¬ ∃ B : Nat, ∀ st : Store, (selectOldMemories 1 0 st).length ≤ B := by
  refine ⟨selectOld_unboundedStore 200, ?_⟩
  rintro ⟨B, hB⟩
  have h := hB (unboundedStore (B + 1))
  rw [selectOld_unboundedStore (B + 1)] at h
  omega

/-- C9 (amended): the pass selects exactly the entity's tier-1 records with
`created_at` older than the cutoff — with no `consolidated` flag (none exists
in the schema) and no batch bound — and, because processed records are
deleted rather than marked, a second pass with the same cutoff re-selects
nothing. -/
theorem selection_c9_amended (eid : Nat) (cutoff : Int) (now : Int) (days : Nat) (st : Store)
    (h : (st.tier1.map (fun r => r.rid)).Nodup) :
    (∀ r, r ∈ selectOldMemories eid cutoff st
        ↔ r ∈ st.tier1 ∧ r.entity_id = eid ∧ r.created_at < cutoff)
  ∧ selectOldMemories eid (cutoffFor now days) ((consolidate eid now days st).1) = [] := by
  refine ⟨?_, selectOld_after_consolidate eid now days st h⟩
  intro r
  unfold selectOldMemories
  rw [List.mem_filter]
  unfold selPred
  simp [and_assoc]

/-- C9 (amended) instantiated at a one-record store. -/
theorem selection_c9_amended_witness :
    ((c9Store.tier1.map (fun r => r.rid)).Nodup)
  ∧ selectOldMemories 1 (cutoffFor 0 0) ((consolidate 1 0 0 c9Store).1) = [] :=
  ⟨by decide, (selection_c9_amended 1 0 0 0 c9Store (by decide)).2⟩

/-- C10: the importance evaluator's score (in tenths) always lies in
[0.4, 1.0]; any record whose `interaction_type` is not "event" scores at
least 0.5 and can never reach the discard branch; a discarded record must be
an "event" with no salience keyword in its serialized payload. -/
theorem importance_range_c10 (m : Tier1Rec) :
    (4 ≤ evaluateImportance m ∧ evaluateImportance m ≤ 10)
  ∧ (m.interaction_type ≠ "event" → 5 ≤ evaluateImportance m)
  ∧ (m.interaction_type ≠ "event" → isDiscarded m = false)
  ∧ (isDiscarded m = true →
      m.interaction_type = "event" ∧ hasSalienceKeyword m.interaction_data = false) := by
  have hw : 4 ≤ importanceWeight m.interaction_type
      ∧ importanceWeight m.interaction_type ≤ 8 := by
    unfold importanceWeight
    split_ifs <;> omega
  have hev : m.interaction_type ≠ "event" → 5 ≤ importanceWeight m.interaction_type := by
    intro hne
    unfold importanceWeight
    split_ifs with h1 h2 h3 h4 h5 <;> first | omega | exact absurd (eq_of_beq h4) hne
  have hkw : hasSalienceKeyword m.interaction_data = true → 6 ≤ evaluateImportance m := by
    intro hk
    unfold evaluateImportance
    simp only [hk, if_true]
    exact le_min (by omega) (by omega)
  have himp : 4 ≤ evaluateImportance m ∧ evaluateImportance m ≤ 10 := by
    unfold evaluateImportance
    cases hk : hasSalienceKeyword m.interaction_data with
    | true =>
      simp only [hk, if_true]
      exact ⟨le_min (by omega) (by omega), min_le_left _ _⟩
    | false =>
      simp only [hk, Bool.false_eq_true, if_false]
      exact ⟨le_min (by omega) (by omega), min_le_left _ _⟩
  have hev2 : m.interaction_type ≠ "event" → 5 ≤ evaluateImportance m := by
    intro hne
    have h5 := hev hne
    unfold evaluateImportance
    cases hk : hasSalienceKeyword m.interaction_data with
    | true =>
      simp only [hk, if_true]
      exact le_min (by omega) (by omega)
    | false =>
      simp only [hk, Bool.false_eq_true, if_false]
      exact le_min (by omega) h5
  refine ⟨himp, hev2, ?_, ?_⟩
  · intro hne
    have h5 := hev2 hne
    have h4 : 4 < evaluateImportance m := by omega
    simp [isDiscarded, h4]
  · intro hd
    have h4 : ¬ 4 < evaluateImportance m := by
      intro hc
      simp [isDiscarded, hc] at hd
    constructor
    · by_contra hne
      have := hev2 hne
      omega
    · by_contra hkne
      have hk : hasSalienceKeyword m.interaction_data = true := by
        cases hx : hasSalienceKeyword m.interaction_data
        · exact absurd hx hkne
        · rfl
      have := hkw hk
      omega

/-- C10 instantiated at a non-event record. -/
theorem importance_range_c10_witness :
    (4 ≤ evaluateImportance c10ConvRec ∧ evaluateImportance c10ConvRec ≤ 10)
  ∧ 5 ≤ evaluateImportance c10ConvRec
  ∧ isDiscarded c10ConvRec = false :=
  ⟨(importance_range_c10 c10ConvRec).1,
   (importance_range_c10 c10ConvRec).2.1 (by decide),
   (importance_range_c10 c10ConvRec).2.2.1 (by decide)⟩

end MemoryEnhancement
